import Mathlib

/-!
Verification of the ai-seo-auditor frontend against its specification.

The definitions below are a shallow embedding of the JavaScript source:

* `getScoreColor`, `getPriorityColor`, `ReportDisplay` — from
  `src/frontend/src/components/ReportDisplay.jsx`; rendering is modelled
  as the ordered list of content-visible text fragments (and color
  classes) the component emits.
* `handleSubmit` — from `src/frontend/src/components/InputForm.jsx`
  (the unnamed source file), modelled as a pure decision: either the
  analysis is initiated with the URL or a form error is shown.
* `handleAnalyze`, `handleDownload`, `dashboardMainView`,
  `handleDownloadFilename` — from `src/frontend/src/pages/Dashboard.jsx`,
  modelled as state transitions on the dashboard's React state
  (`reportData`, `isLoading`, `error`), with the network outcome
  supplied as an explicit parameter.
* `validateOverallScore` — the backend Report Validator is not part of
  the provided sources, so it is modelled from the specification.
-/

namespace SeoAuditor

/-- Embeds `getScoreColor` of `ReportDisplay.jsx`: Tailwind color class
for the header score badge. -/
def getScoreColor (score : Int) : String :=
  if score ≥ 80 then "bg-green-500"
  else if score ≥ 60 then "bg-yellow-500"
  else "bg-red-500"

/-- Embeds `getPriorityColor` of `ReportDisplay.jsx`: the JS `switch` on
the priority string, written as equality dispatch. -/
def getPriorityColor (priority : String) : String :=
  if priority = "High" then "bg-red-100 text-red-800"
  else if priority = "Medium" then "bg-yellow-100 text-yellow-800"
  else if priority = "Low" then "bg-green-100 text-green-800"
  else "bg-gray-100 text-gray-800"

/-- One `issues_found` entry of the canonical `SeoReport` schema. -/
structure Issue where
  issue : String
  description : String
  priority : String
  recommended_action : String
deriving Repr, DecidableEq

/-- The canonical `SeoReport` schema (spec §3), as consumed by
`ReportDisplay`.  `technical_seo_evaluation` is the ordered key/value
list `Object.entries` iterates over. -/
structure SeoReport where
  overall_seo_score : Int
  summary : String
  issues_found : List Issue
  technical_seo_evaluation : List (String × String)
  keyword_strategy_suggestions : List String
  ranking_forecast : String
deriving Repr, DecidableEq

/-- Content-visible text of one issues-table row in `ReportDisplay.jsx`
(issue title, description, priority badge class and label, action). -/
def renderIssueRow (i : Issue) : List String :=
  [i.issue, i.description, getPriorityColor i.priority, i.priority,
   i.recommended_action]

/-- All issues-table body rows, one per `issues_found` entry. -/
def renderIssueRows (r : SeoReport) : List String :=
  (r.issues_found.map renderIssueRow).flatten

/-- The JS `key.replace(/_/g, ' ')`: every underscore character becomes
a space. -/
def replaceUnderscores (s : String) : String :=
  ⟨s.data.map fun c => if c = '_' then ' ' else c⟩

/-- One technical-evaluation row: the key with underscores replaced by
spaces, then the verdict text. -/
def renderTechRow (kv : String × String) : List String :=
  [replaceUnderscores kv.1 ++ ":", kv.2]

/-- Content-visible text of the full report body of `ReportDisplay.jsx`,
in document order: header, score badge, summary, issues table,
technical evaluation, forecast, keyword tags, download button. -/
def renderReportBody (r : SeoReport) : List String :=
  ["AI SEO Audit Complete", "Autonomous analysis powered by Gemini.",
   getScoreColor r.overall_seo_score, toString r.overall_seo_score, "/100",
   "Overall Summary", r.summary,
   "Issues Found & Actions", "Issue", "Priority", "Recommended Action"]
  ++ renderIssueRows r
  ++ ["Technical Evaluation"]
  ++ (r.technical_seo_evaluation.map renderTechRow).flatten
  ++ ["Ranking Forecast & Keywords", "Forecast:", r.ranking_forecast,
      "Keyword Suggestions:"]
  ++ r.keyword_strategy_suggestions
  ++ ["Download Professional SEO Report (PDF)"]

/-- The placeholder `ReportDisplay` returns for missing/falsy data. -/
def noReportPlaceholder : List String := ["No SEO report data to display."]

/-- Embeds the `ReportDisplay` component: the guard
`if (!report || !report.overall_seo_score)` returns the placeholder; for
an integer score the falsy values are exactly `0`. -/
def ReportDisplay (report : Option SeoReport) : List String :=
  match report with
  | none => noReportPlaceholder
  | some r =>
      if r.overall_seo_score = 0 then noReportPlaceholder
      else renderReportBody r

/-- Whether `sub` occurs as a contiguous substring of `s`, at the
character level. -/
def textContains (s sub : String) : Bool :=
  decide (sub.data <:+: s.data)

/-- Whether any rendered fragment contains `sub` as a substring. -/
def rendersText (out : List String) (sub : String) : Bool :=
  out.any fun s => textContains s sub

/-- A representative Validator-accepted report with an empty
`issues_found` list, used as the concrete rendering input. -/
def sampleValidReport : SeoReport where
  overall_seo_score := 72
  summary := "Solid foundation with room to improve."
  issues_found := []
  technical_seo_evaluation := [("page_speed", "Good"), ("mobile_friendly", "Yes")]
  keyword_strategy_suggestions := ["seo audit", "site health"]
  ranking_forecast := "Upward trend expected within two months."

/-- Outcome of submitting the URL form: either the analysis is
initiated (`onAnalyze(url)` is called) or a form error is shown. -/
inductive SubmitResult
  | analyze (url : String)
  | formError (msg : String)
deriving Repr, DecidableEq

/-- The validation error message of `InputForm.jsx`. -/
def urlErrorMsg : String :=
  "Please enter a valid URL starting with http:// or https://"

/-- The JS `s.startsWith(pre)`, at the character level. -/
def jsStartsWith (s pre : String) : Bool :=
  pre.data.isPrefixOf s.data

/-- Embeds `InputForm.handleSubmit`: rejects any URL that does not start
with `http://` or `https://`, otherwise calls `onAnalyze(url)`. -/
def handleSubmit (url : String) : SubmitResult :=
  if !(jsStartsWith url "http://") && !(jsStartsWith url "https://") then
    .formError urlErrorMsg
  else
    .analyze url

/-- The React state of the `Dashboard` component:
`reportData`, `isLoading`, `error`. -/
structure DashboardState where
  reportData : Option SeoReport
  isLoading : Bool
  error : Option String
deriving Repr, DecidableEq

/-- Outcome of the `/analyze` request as observed by `handleAnalyze`:
the fetch itself throws, `response.json()` throws, the response has a
non-ok status (its error body text attached), or it succeeds and carries
`data.seo_report` (possibly absent). -/
inductive AnalyzeOutcome
  | fetchThrows (msg : String)
  | jsonThrows (msg : String)
  | httpError (textBody : String)
  | success (seo_report : Option SeoReport)
deriving Repr, DecidableEq

/-- Fallback message in `handleAnalyze`'s catch block. -/
def analysisFallbackMsg : String :=
  "An unexpected error occurred during analysis."

/-- Fallback message thrown on a non-ok `/analyze` response. -/
def backendFailMsg : String := "Failed to get SEO analysis from backend."

/-- Embeds `Dashboard.handleAnalyze` as a state transition: it first
clears `reportData` and `error` and sets `isLoading`; on any failure the
catch block stores `err.message || fallback` in `error` and `reportData`
stays `null`; only on success is `data.seo_report` stored.  `finally`
clears `isLoading`. -/
def handleAnalyze (outcome : AnalyzeOutcome) : DashboardState :=
  match outcome with
  | .fetchThrows msg =>
      { reportData := none, isLoading := false,
        error := some (if msg = "" then analysisFallbackMsg else msg) }
  | .jsonThrows msg =>
      { reportData := none, isLoading := false,
        error := some (if msg = "" then analysisFallbackMsg else msg) }
  | .httpError textBody =>
      { reportData := none, isLoading := false,
        error := some (if textBody = "" then backendFailMsg else textBody) }
  | .success rep =>
      { reportData := rep, isLoading := false, error := none }

/-- Which main block `Dashboard` renders. -/
inductive MainView
  | inputForm
  | reportDisplay (r : SeoReport)
deriving Repr, DecidableEq

/-- Embeds the `Dashboard` conditional rendering: the input form when
`reportData` is `null`, otherwise the report display. -/
def dashboardMainView (s : DashboardState) : MainView :=
  match s.reportData with
  | none => .inputForm
  | some r => .reportDisplay r

/-- Side effects of one `handleDownload` call that the state alone does
not show: whether the `/download` request was issued and whether the
loading state was entered. -/
structure DownloadEffects where
  requestIssued : Bool
  enteredLoading : Bool
deriving Repr, DecidableEq

/-- Outcome of the `/download` request once issued. -/
inductive DownloadOutcome
  | httpError (textBody : String)
  | throws (msg : String)
  | pdfOk
deriving Repr, DecidableEq

/-- The guard message of `handleDownload` when no report is stored. -/
def noReportMsg : String := "No report data available to download."

/-- Fallback message thrown on a non-ok `/download` response. -/
def pdfFailMsg : String := "Failed to generate PDF."

/-- Fallback message in `handleDownload`'s catch block. -/
def downloadFallbackMsg : String := "An error occurred during PDF download."

/-- Embeds `Dashboard.handleDownload` as a state transition.  When
`reportData` is `null` it sets the guard error and returns before the
fetch and before `setIsLoading(true)`; otherwise it clears the error,
enters loading, issues the request, and on failure stores
`err.message || fallback`.  `finally` clears `isLoading`. -/
def handleDownload (s : DashboardState) (outcome : DownloadOutcome) :
    DashboardState × DownloadEffects :=
  match s.reportData with
  | none => ({ s with error := some noReportMsg }, ⟨false, false⟩)
  | some _ =>
      match outcome with
      | .pdfOk =>
          ({ s with error := none, isLoading := false }, ⟨true, true⟩)
      | .httpError t =>
          ({ s with
              isLoading := false
              error := some (if t = "" then pdfFailMsg else t) },
           ⟨true, true⟩)
      | .throws m =>
          ({ s with
              isLoading := false
              error := some (if m = "" then downloadFallbackMsg else m) },
           ⟨true, true⟩)

/-- Embeds the `a.download` filename of `Dashboard.handleDownload`:
`SEO_Report_` + `new Date().toISOString().slice(0, 10)` + `.pdf`.  The
clock is an explicit input: `isoNow` stands for the full ISO timestamp
string returned by `toISOString()`. -/
def handleDownloadFilename (isoNow : String) : String :=
  "SEO_Report_" ++ isoNow.take 10 ++ ".pdf"

/-- A generic JSON value, the shape of the model output the Validator
checks field by field. -/
inductive JsonValue
  | num (n : Int)
  | str (s : String)
  | boolean (b : Bool)
  | null
  | arr (items : List JsonValue)
  | obj (fields : List (String × JsonValue))

/-- The Validator's error taxonomy (spec §4.4 / §7). -/
inductive SchemaError
  | malformed
  | invalid_json
  | fieldError (field : String)
deriving Repr, DecidableEq

/-- Modelled from the spec: the backend Report Validator is not among
the provided source files.  Spec §4.4: `overall_seo_score` "must coerce
to an integer in [0,100]; out-of-range values are clamped, not rejected
..., but a non-numeric value fails with
`SchemaError{field: overall_seo_score}`". -/
def validateOverallScore (v : JsonValue) : Except SchemaError Int :=
  match v with
  | .num n => .ok (max 0 (min 100 n))
  | _ => .error (.fieldError "overall_seo_score")

/-- `sampleValidReport` with the schema-valid score `0`. -/
def zeroScoreReport : SeoReport :=
  { sampleValidReport with overall_seo_score := 0 }

/-- The dashboard's initial React state: no report, not loading,
no error. -/
def initialDashboardState : DashboardState :=
  { reportData := none, isLoading := false, error := none }

/-! ## Theorems -/

/-- C1: for every integer score, the header score color is green iff
`score ≥ 80`, amber iff `60 ≤ score < 80`, and red iff `score < 60`. -/
theorem getScoreColor_bands (score : Int) :
    (getScoreColor score = "bg-green-500" ↔ 80 ≤ score) ∧
    (getScoreColor score = "bg-yellow-500" ↔ 60 ≤ score ∧ score < 80) ∧
    (getScoreColor score = "bg-red-500" ↔ score < 60) := by
  unfold getScoreColor
  split_ifs with h1 h2 <;>
    refine ⟨?_, ?_, ?_⟩ <;>
    constructor <;>
    intro h <;>
    first
      | rfl
      | omega
      | constructor <;> omega
      | exact absurd h (by decide)

/-- C1 witness: a score of 72 is colored amber. -/
theorem getScoreColor_bands_witness : getScoreColor 72 = "bg-yellow-500" :=
  (getScoreColor_bands 72).2.1.mpr (by constructor <;> decide)

/-- C2: the issue badge color is red for `High`, amber for `Medium`,
green for `Low`, and the neutral gray for every other string. -/
theorem getPriorityColor_badges :
    getPriorityColor "High" = "bg-red-100 text-red-800" ∧
    getPriorityColor "Medium" = "bg-yellow-100 text-yellow-800" ∧
    getPriorityColor "Low" = "bg-green-100 text-green-800" ∧
    ∀ p : String, p ≠ "High" → p ≠ "Medium" → p ≠ "Low" →
      getPriorityColor p = "bg-gray-100 text-gray-800" := by
  refine ⟨by decide, by decide, by decide, ?_⟩
  intro p h1 h2 h3
  unfold getPriorityColor
  rw [if_neg h1, if_neg h2, if_neg h3]

/-- C2 witness: an unrecognized priority string gets the neutral
badge color. -/
theorem getPriorityColor_badges_witness :
    getPriorityColor "Critical" = "bg-gray-100 text-gray-800" :=
  getPriorityColor_badges.2.2.2 "Critical" (by decide) (by decide) (by decide)

/-- C3 counterexample: a Validator-accepted report with an empty
`issues_found` list renders with no "no issues found" default text
(checked in every plausible capitalization); the empty list simply
produces zero table rows. -/
theorem render_no_issues_text_counterexample :
    sampleValidReport.issues_found = [] ∧
    rendersText (ReportDisplay (some sampleValidReport)) "no issues" = false ∧
    rendersText (ReportDisplay (some sampleValidReport)) "No issues" = false ∧
    rendersText (ReportDisplay (some sampleValidReport)) "No Issues" = false ∧
    rendersText (ReportDisplay (some sampleValidReport)) "NO ISSUES" = false := by
  refine ⟨rfl, ?_, ?_, ?_, ?_⟩ <;> decide

/-- C3 (amended): rendering is total on every Validator-accepted report
(it always produces output), and when `issues_found` is empty the
issues table simply has no body rows; the component emits no
"no issues found" default text. -/
theorem render_total_and_empty_issues (r : SeoReport)
    (_hlo : 0 ≤ r.overall_seo_score) (_hhi : r.overall_seo_score ≤ 100) :
    ReportDisplay (some r) ≠ [] ∧
    (r.issues_found = [] → renderIssueRows r = []) := by
  constructor
  · simp only [ReportDisplay]
    split_ifs with h
    · simp [noReportPlaceholder]
    · simp [renderReportBody]
  · intro h
    simp [renderIssueRows, h]

/-- C3 witness: the amended property at the concrete sample report. -/
theorem render_total_and_empty_issues_witness :
    ReportDisplay (some sampleValidReport) ≠ [] ∧
    renderIssueRows sampleValidReport = [] :=
  ⟨(render_total_and_empty_issues sampleValidReport (by decide) (by decide)).1,
   (render_total_and_empty_issues sampleValidReport (by decide) (by decide)).2 rfl⟩

/-- C4: rendering is deterministic — two rendering runs on equal
reports produce identical content-visible text. -/
theorem render_deterministic (r₁ r₂ : SeoReport) (h : r₁ = r₂) :
    ReportDisplay (some r₁) = ReportDisplay (some r₂) := by
  rw [h]

/-- C4 witness: two runs on the sample report agree. -/
theorem render_deterministic_witness :
    ReportDisplay (some sampleValidReport) =
      ReportDisplay (some sampleValidReport) :=
  render_deterministic sampleValidReport sampleValidReport rfl

/-- C5: `onAnalyze` is called exactly when the URL starts with
`http://` or `https://`; for every other URL the form error is shown
and no analysis is initiated. -/
theorem handleSubmit_url_guard (url : String) :
    (handleSubmit url = .analyze url ↔
      (jsStartsWith url "http://" = true ∨
       jsStartsWith url "https://" = true)) ∧
    (jsStartsWith url "http://" = false →
     jsStartsWith url "https://" = false →
      handleSubmit url = .formError urlErrorMsg) := by
  unfold handleSubmit
  cases h1 : jsStartsWith url "http://" <;>
    cases h2 : jsStartsWith url "https://" <;> simp

/-- C5 witness: a URL without an http/https scheme is rejected. -/
theorem handleSubmit_url_guard_witness :
    handleSubmit "example.com" = .formError urlErrorMsg :=
  (handleSubmit_url_guard "example.com").2 (by decide) (by decide)

/-- C6: the download filename is exactly `SEO_Report_` followed by the
ISO date — the first 10 characters, `YYYY-MM-DD`, of the clock's full
ISO timestamp — followed by `.pdf`. -/
theorem downloadFilename_convention (isoNow isoDate : String)
    (h : isoNow.take 10 = isoDate) :
    handleDownloadFilename isoNow = "SEO_Report_" ++ isoDate ++ ".pdf" := by
  unfold handleDownloadFilename
  rw [h]

/-- C6 witness: the filename for a concrete ISO timestamp. -/
theorem downloadFilename_convention_witness :
    handleDownloadFilename "2026-10-11T12:34:56.000Z" =
      "SEO_Report_" ++ "2026-10-11" ++ ".pdf" :=
  downloadFilename_convention "2026-10-11T12:34:56.000Z" "2026-10-11"
    (by decide)

/-- C7: on any non-success analyze outcome (the fetch throws, the body
is not JSON, or the response status is not ok), no report is stored,
the dashboard keeps showing the input form rather than any report
display, and a non-empty human-readable error message is stored for
display. -/
theorem handleAnalyze_failure_total (o : AnalyzeOutcome)
    (h : ∀ rep, o ≠ .success rep) :
    (handleAnalyze o).reportData = none ∧
    dashboardMainView (handleAnalyze o) = .inputForm ∧
    ∃ msg, (handleAnalyze o).error = some msg ∧ msg ≠ "" := by
  cases o with
  | fetchThrows msg =>
      refine ⟨rfl, rfl, ?_⟩
      by_cases hm : msg = ""
      · exact ⟨analysisFallbackMsg, by simp [handleAnalyze, hm], by decide⟩
      · exact ⟨msg, by simp [handleAnalyze, hm], hm⟩
  | jsonThrows msg =>
      refine ⟨rfl, rfl, ?_⟩
      by_cases hm : msg = ""
      · exact ⟨analysisFallbackMsg, by simp [handleAnalyze, hm], by decide⟩
      · exact ⟨msg, by simp [handleAnalyze, hm], hm⟩
  | httpError textBody =>
      refine ⟨rfl, rfl, ?_⟩
      by_cases hm : textBody = ""
      · exact ⟨backendFailMsg, by simp [handleAnalyze, hm], by decide⟩
      · exact ⟨textBody, by simp [handleAnalyze, hm], hm⟩
  | success rep =>
      exact absurd rfl (h rep)

/-- C7 witness: a 500-style response with an error body stores no
report and shows the input form plus an error message. -/
theorem handleAnalyze_failure_total_witness :
    (handleAnalyze (.httpError "Internal Server Error")).reportData
        = none ∧
    dashboardMainView (handleAnalyze (.httpError "Internal Server Error"))
        = .inputForm ∧
    ∃ msg,
      (handleAnalyze (.httpError "Internal Server Error")).error
          = some msg ∧ msg ≠ "" :=
  handleAnalyze_failure_total (.httpError "Internal Server Error")
    (fun _ hEq => AnalyzeOutcome.noConfusion hEq)

/-- C8: a numeric `overall_seo_score` outside [0,100] is clamped to the
nearer bound and validation succeeds; a non-numeric value fails with
the field-specific error naming `overall_seo_score`. -/
theorem validateOverallScore_clamp_or_fail (v : JsonValue) :
    (∀ n : Int, v = .num n → (n < 0 ∨ 100 < n) →
      validateOverallScore v = .ok (if n < 0 then 0 else 100)) ∧
    ((∀ n : Int, v ≠ .num n) →
      validateOverallScore v = .error (.fieldError "overall_seo_score")) := by
  constructor
  · rintro n rfl hout
    simp only [validateOverallScore]
    rcases hout with hneg | hbig
    · rw [if_pos hneg]
      have h1 : min (100 : Int) n = n := min_eq_right (by omega)
      have h2 : max (0 : Int) n = 0 := max_eq_left (by omega)
      rw [h1, h2]
    · rw [if_neg (by omega)]
      have h1 : min (100 : Int) n = 100 := min_eq_left (by omega)
      have h2 : max (0 : Int) 100 = 100 := max_eq_right (by omega)
      rw [h1, h2]
  · intro h
    cases v with
    | num n => exact absurd rfl (h n)
    | str s => rfl
    | boolean b => rfl
    | null => rfl
    | arr items => rfl
    | obj fields => rfl

/-- C8 witness: 150 is clamped to 100 and the string `"N/A"` fails with
the field-specific error. -/
theorem validateOverallScore_clamp_or_fail_witness :
    validateOverallScore (.num 150) = .ok 100 ∧
    validateOverallScore (.str "N/A")
        = .error (.fieldError "overall_seo_score") := by
  constructor
  · have h := (validateOverallScore_clamp_or_fail (.num 150)).1 150 rfl
      (Or.inr (by omega))
    rwa [if_neg (by omega)] at h
  · exact (validateOverallScore_clamp_or_fail (.str "N/A")).2
      (fun _ hEq => JsonValue.noConfusion hEq)

/-- C9: `ReportDisplay` returns the placeholder exactly when the report
is absent or its `overall_seo_score` is falsy (for an integer score,
exactly `0`) — so a report with the schema-valid score `0` shows the
placeholder instead of the report. -/
theorem reportDisplay_placeholder_iff (r : Option SeoReport) :
    ReportDisplay r = noReportPlaceholder ↔
      (r = none ∨ ∃ rep, r = some rep ∧ rep.overall_seo_score = 0) := by
  cases r with
  | none => simp [ReportDisplay]
  | some rep =>
      by_cases h : rep.overall_seo_score = 0
      · simp [ReportDisplay, h]
      · simp only [ReportDisplay, if_neg h]
        constructor
        · intro hEq
          exact absurd hEq (by simp [renderReportBody, noReportPlaceholder])
        · rintro (hc | ⟨rep', hEq, h0⟩)
          · exact Option.noConfusion hc
          · cases Option.some.inj hEq
            exact absurd h0 h

/-- C9 witness: the schema-valid score `0` yields the placeholder. -/
theorem reportDisplay_placeholder_iff_witness :
    ReportDisplay (some zeroScoreReport) = noReportPlaceholder :=
  (reportDisplay_placeholder_iff (some zeroScoreReport)).mpr
    (Or.inr ⟨zeroScoreReport, rfl, rfl⟩)

/-- C10: when no report is stored, `handleDownload` only sets the
"No report data available to download." error — the rest of the state
is unchanged, no request is issued, and the loading state is never
entered. -/
theorem handleDownload_no_report_guard (s : DashboardState)
    (o : DownloadOutcome) (h : s.reportData = none) :
    handleDownload s o =
      ({ s with error := some noReportMsg }, ⟨false, false⟩) := by
  obtain ⟨rd, il, er⟩ := s
  simp only at h
  subst h
  rfl

/-- C10 witness: the guard at the initial dashboard state. -/
theorem handleDownload_no_report_guard_witness :
    handleDownload initialDashboardState .pdfOk =
      ({ initialDashboardState with error := some noReportMsg },
       ⟨false, false⟩) :=
  handleDownload_no_report_guard initialDashboardState .pdfOk rfl

end SeoAuditor
